import Mathlib

/-!
# Build controller factory (pkg/build/controller/factory/factory.go)

A shallow embedding of the factory package: the strategy dispatcher
(typeBasedFactoryStrategy), the Build list/watch source (buildLW), the pod
enumerator with its polling function, and the composer (Create).

Go pointers are options (none is nil), a Go (value, error) result is a pair of
options, a run-time panic is an explicit result, and every call into a
collaborator declared outside this file is recorded in a call trace next to the
value it returned.
-/

namespace Factory

/-! ## Data model -/

/-- Go error value: errors.New(msg). A nil error is Option.none. -/
structure Error where
  msg : String
deriving DecidableEq, Repr

/-- Run-time panics reachable from the code of this package. -/
inductive Panic where
  | nilDereference
  | indexOutOfRange
  | typeAssertion
deriving DecidableEq, Repr

/-- Outcome of a Go call that either returns a value or panics. -/
inductive Run (α : Type) where
  | ret (a : α)
  | panic (p : Panic)
deriving DecidableEq, Repr

/-- A value together with the calls into collaborators made while computing it. -/
structure Traced (α : Type) (κ : Type) where
  value : α
  calls : List κ

/-- kapi.Pod: the identifier (JSONBase.ID) and the rest of the object. -/
structure Pod where
  ID : String
  payload : String
deriving DecidableEq, Repr

/-- kapi.PodList: only Items is read by this package. -/
structure PodList where
  Items : List Pod
deriving DecidableEq, Repr

/-- buildapi.BuildStrategy: only the Type tag is read by this package (the field
is spelled Type_ here, Type being reserved). -/
structure BuildStrategy where
  Type_ : String
deriving DecidableEq, Repr

/-- buildapi.BuildParameters. -/
structure BuildParameters where
  Strategy : BuildStrategy
deriving DecidableEq, Repr

/-- buildapi.Build. -/
structure Build where
  ID : String
  Parameters : BuildParameters
deriving DecidableEq, Repr

/-- buildapi.BuildList. -/
structure BuildList where
  Items : List Build
deriving DecidableEq, Repr

/-- The strategy kind constants buildapi.DockerBuildStrategyType and
buildapi.STIBuildStrategyType. They are declared outside this file and are
taken as parameters. Go rejects a switch with two equal constant cases, so the
two values differ. -/
structure StrategyTypes where
  DockerBuildStrategyType : String
  STIBuildStrategyType : String
  distinct : DockerBuildStrategyType ≠ STIBuildStrategyType

/-! ## Strategy dispatcher -/

/-- Result of a CreateBuildPod call: (pod, error), each possibly nil. -/
abbrev PodResult := Option Pod × Option Error

/-- strategy.DockerBuildStrategy, seen through the one method this package
calls. The method body lives in another package and is a parameter. -/
structure DockerBuildStrategy where
  CreateBuildPod : Build → PodResult

/-- strategy.STIBuildStrategy, seen through the one method this package calls. -/
structure STIBuildStrategy where
  CreateBuildPod : Build → PodResult

/-- Calls a dispatcher can make into the strategies. -/
inductive StrategyCall where
  | docker (build : Build)
  | sti (build : Build)
deriving DecidableEq, Repr

/-- The struct typeBasedFactoryStrategy. -/
structure typeBasedFactoryStrategy where
  DockerBuildStrategy : DockerBuildStrategy
  STIBuildStrategy : STIBuildStrategy

/-- typeBasedFactoryStrategy.CreateBuildPod: switch on the strategy type of the
build, first case first. -/
def typeBasedFactoryStrategy.CreateBuildPod (k : StrategyTypes)
    (f : typeBasedFactoryStrategy) (build : Build) : Traced PodResult StrategyCall :=
  if build.Parameters.Strategy.Type_ = k.DockerBuildStrategyType then
    ⟨f.DockerBuildStrategy.CreateBuildPod build, [StrategyCall.docker build]⟩
  else if build.Parameters.Strategy.Type_ = k.STIBuildStrategyType then
    ⟨f.STIBuildStrategy.CreateBuildPod build, [StrategyCall.sti build]⟩
  else
    ⟨(none, some ⟨"No strategy defined for type"⟩), []⟩

/-- A string z occurs in a string s as a contiguous run of characters. -/
def occursIn (z s : String) : Prop := z.data <:+: s.data

instance occursInDecidable (z s : String) : Decidable (occursIn z s) := by
  unfold occursIn
  infer_instance

/-! ## Collaborators of the list/watch source and of the poller -/

/-- Modelled from the spec: kapi.Context (declared outside this file), a bag of
request-scoped values. -/
structure Context where
  values : List (String × String)
deriving DecidableEq, Repr

/-- Modelled from the spec: kapi.NewContext() (declared outside this file), a
context that carries nothing. -/
def NewContext : Context := ⟨[]⟩

/-- Modelled from the spec: labels.Selector (declared outside this file), a
conjunction of key/value requirements on a label set. -/
structure Selector where
  requirements : List (String × String)
deriving DecidableEq, Repr

/-- A label set satisfies a selector when it holds every required pair. -/
def Selector.Matches (s : Selector) (ls : List (String × String)) : Bool :=
  s.requirements.all (fun r => decide (r ∈ ls))

/-- Modelled from the spec: labels.Everything() (declared outside this file), the
selector the spec calls match everything: it has no requirement. -/
def Everything : Selector := ⟨[]⟩

/-- Handle of an open change subscription (watch.Interface). -/
structure WatchInterface where
  handle : Nat
deriving DecidableEq, Repr

/-- Result of ListBuilds: (snapshot, error). -/
abbrev ListBuildsResult := Option BuildList × Option Error

/-- Result of WatchBuilds: (subscription, error). -/
abbrev WatchBuildsResult := Option WatchInterface × Option Error

/-- Result of ListPods: (list, error). -/
abbrev ListPodsResult := Option PodList × Option Error

/-- The two methods of osclient.Interface this package calls. What the remote
authority answers is a parameter. -/
structure Client where
  ListBuilds : Context → Selector → ListBuildsResult
  WatchBuilds : Context → Selector → Selector → String → WatchBuildsResult

/-- The one method of kclient.Client this package calls. -/
structure KubeClient where
  ListPods : Context → Selector → ListPodsResult

/-- Requests issued to the remote authority, with their arguments. -/
inductive ClientCall where
  | ListBuilds (ctx : Context) (selector : Selector)
  | WatchBuilds (ctx : Context) (selector1 selector2 : Selector) (resourceVersion : String)
  | ListPods (ctx : Context) (selector : Selector)
deriving DecidableEq, Repr

/-! ## buildLW: the ListWatcher for Builds -/

/-- The struct buildLW. The client is an interface value holding the pointer it
was given; none stands for a nil pointer held inside (in Go the interface value
itself is then not nil, and a call through it still fails on the pointer). -/
structure buildLW where
  client : Option Client

/-- buildLW.List: lists all Builds. A call through a nil client panics. -/
def buildLW.List (lw : buildLW) : Traced (Run ListBuildsResult) ClientCall :=
  match lw.client with
  | none => ⟨Run.panic Panic.nilDereference, []⟩
  | some c =>
    ⟨Run.ret (c.ListBuilds NewContext Everything),
      [ClientCall.ListBuilds NewContext Everything]⟩

/-- buildLW.Watch: watches all Builds. The body never reads resourceVersion. -/
def buildLW.Watch (lw : buildLW) (resourceVersion : String) :
    Traced (Run WatchBuildsResult) ClientCall :=
  let _ := resourceVersion
  match lw.client with
  | none => ⟨Run.panic Panic.nilDereference, []⟩
  | some c =>
    ⟨Run.ret (c.WatchBuilds NewContext Everything Everything "0"),
      [ClientCall.WatchBuilds NewContext Everything Everything "0"]⟩

/-! ## podEnumerator -/

/-- The struct podEnumerator: it embeds a pointer to a kapi.PodList. -/
structure podEnumerator where
  PodList : Option PodList

/-- podEnumerator.Len: the number of items in the pod list, 0 for a nil list. -/
def podEnumerator.Len (pe : podEnumerator) : Run Int :=
  match pe.PodList with
  | none => Run.ret 0
  | some l => Run.ret (l.Items.length : Int)

/-- podEnumerator.Get: the ID of the item at the index and the item itself (Go
returns the address of the slot in Items). Reading Items through a nil list
panics, and so does an index outside the slice. -/
def podEnumerator.Get (pe : podEnumerator) (index : Int) : Run (String × Pod) :=
  match pe.PodList with
  | none => Run.panic Panic.nilDereference
  | some l =>
    if index < 0 then Run.panic Panic.indexOutOfRange
    else
      match l.Items[index.toNat]? with
      | none => Run.panic Panic.indexOutOfRange
      | some p => Run.ret (p.ID, p)

/-- Modelled from the spec: the loop of a caller of the enumeration contract
(the Poller, declared outside this file): Get is called at the given indices in
order, the pairs are collected, and the indices passed to Get are recorded. -/
def getEach (pe : podEnumerator) : List Nat → Traced (Run (List (String × Pod))) Int
  | [] => ⟨Run.ret [], []⟩
  | i :: is =>
    match pe.Get (Int.ofNat i) with
    | Run.panic p => ⟨Run.panic p, [Int.ofNat i]⟩
    | Run.ret x =>
      match getEach pe is with
      | ⟨Run.panic p, calls⟩ => ⟨Run.panic p, Int.ofNat i :: calls⟩
      | ⟨Run.ret xs, calls⟩ => ⟨Run.ret (x :: xs), Int.ofNat i :: calls⟩

/-- Modelled from the spec: one enumeration cycle of a caller that calls Len
once and then Get for the indices 0 <= i < Len() in increasing order. -/
def enumerate (pe : podEnumerator) : Traced (Run (List (String × Pod))) Int :=
  match pe.Len with
  | Run.panic p => ⟨Run.panic p, []⟩
  | Run.ret n => getEach pe (List.range n.toNat)

/-! ## BuildControllerFactory -/

/-- The struct BuildControllerFactory. Both clients are pointers and may be nil;
the strategies are seen through their method. -/
structure BuildControllerFactory where
  Client : Option Client
  KubeClient : Option KubeClient
  DockerBuildStrategy : DockerBuildStrategy
  STIBuildStrategy : STIBuildStrategy

/-- Result of pollPods: (enumerator, error). -/
abbrev PollResult := Option podEnumerator × Option Error

/-- BuildControllerFactory.pollPods: lists all pods and returns an enumerator
over the list. A call through a nil KubeClient panics. -/
def BuildControllerFactory.pollPods (factory : BuildControllerFactory) :
    Traced (Run PollResult) ClientCall :=
  match factory.KubeClient with
  | none => ⟨Run.panic Panic.nilDereference, []⟩
  | some kc =>
    match kc.ListPods NewContext Everything with
    | (_, some err) => ⟨Run.ret (none, some err), [ClientCall.ListPods NewContext Everything]⟩
    | (list, none) =>
      ⟨Run.ret (some ⟨list⟩, none), [ClientCall.ListPods NewContext Everything]⟩

/-! ## Create: the composer -/

/-- Reference to an object allocated by a constructor of package cache. -/
abbrev Ref := Nat

/-- Values held in a sink (interface values): a Build or a Pod. -/
inductive Obj where
  | build (b : Build)
  | pod (p : Pod)
deriving DecidableEq, Repr

/-- Contents of the sinks at some moment, by reference. -/
structure Sinks where
  items : Ref → List Obj

/-- Behaviour of the blocking call q.Pop() of a cache.FIFO in a given state of
the sinks: none while the caller stays suspended, otherwise the item and the
state after its removal. The queue is declared outside this file and its Pop is
a parameter. -/
abbrev PopFn := Ref → Sinks → Option (Obj × Sinks)

/-- Outcome of one of the accessor closures handed to the controller. -/
inductive Next (α : Type) where
  | blocked
  | value (a : α) (after : Sinks)
  | panic (p : Panic)

/-- The struct controller.BuildController, as filled in by Create. BuildUpdater
and PodCreator are interface values holding the pointer they were given. -/
structure BuildController where
  BuildStore : Ref
  BuildUpdater : Option Client
  PodCreator : Option KubeClient
  NextBuild : Sinks → Next Build
  NextPod : Sinks → Next Pod
  BuildStrategy : typeBasedFactoryStrategy

/-- Go type a Reflector expects from its source. -/
inductive ExpectedType where
  | Build
  | Pod
deriving DecidableEq, Repr

/-- A time.Duration, in nanoseconds. -/
abbrev Duration := Int

/-- The constant time.Second. -/
def Second : Duration := 1000000000

/-- Calls Create makes into package cache, in program order. -/
inductive Effect where
  | NewStore (r : Ref)
  | NewFIFO (r : Ref)
  | ReflectorRun (lw : buildLW) (expectedType : ExpectedType) (sink : Ref)
  | PollerRun (getFunc : Unit → Traced (Run PollResult) ClientCall) (period : Duration)
      (sink : Ref)

/-- An effect that starts a background synchronization task. -/
def Effect.startsTask : Effect → Bool
  | Effect.ReflectorRun _ _ _ => true
  | Effect.PollerRun _ _ _ => true
  | _ => false

/-- The sink a started task writes to. -/
def Effect.sink : Effect → Option Ref
  | Effect.ReflectorRun _ _ r => some r
  | Effect.PollerRun _ _ r => some r
  | _ => none

/-- The watch source a started Reflector is driven by. -/
def Effect.source : Effect → Option buildLW
  | Effect.ReflectorRun lw _ _ => some lw
  | _ => none

/-- What a call of Create leaves behind: the returned pointer, the calls made
into package cache before returning, and the next unused reference. -/
structure Created where
  controller : Option BuildController
  effects : List Effect
  nextRef : Ref

/-- BuildControllerFactory.Create. The three constructor calls allocate the
references fresh, fresh + 1 and fresh + 2. NextBuild is the closure
func() { return buildQueue.Pop().(*buildapi.Build) } and NextPod the closure
func() { return podQueue.Pop().(*kapi.Pod) }: each pops its queue and asserts
the type of the item, which panics on an item of the other type. -/
def BuildControllerFactory.Create (pop : PopFn) (factory : BuildControllerFactory)
    (fresh : Ref) : Created :=
  let buildStore := fresh
  let buildQueue := fresh + 1
  let podQueue := fresh + 2
  ⟨some
      ⟨buildStore, factory.Client, factory.KubeClient,
        fun s =>
          match pop buildQueue s with
          | none => Next.blocked
          | some (Obj.build b, after) => Next.value b after
          | some (Obj.pod _, _) => Next.panic Panic.typeAssertion,
        fun s =>
          match pop podQueue s with
          | none => Next.blocked
          | some (Obj.pod p, after) => Next.value p after
          | some (Obj.build _, _) => Next.panic Panic.typeAssertion,
        ⟨factory.DockerBuildStrategy, factory.STIBuildStrategy⟩⟩,
    [Effect.NewStore buildStore,
      Effect.ReflectorRun ⟨factory.Client⟩ ExpectedType.Build buildStore,
      Effect.NewFIFO buildQueue,
      Effect.ReflectorRun ⟨factory.Client⟩ ExpectedType.Build buildQueue,
      Effect.NewFIFO podQueue,
      Effect.PollerRun (fun _ => factory.pollPods) (10 * Second) podQueue],
    fresh + 3⟩

/-! ## Sample inputs -/

/-- Sample values of the two strategy kind constants. -/
def sampleTypes : StrategyTypes := ⟨"docker", "sti", by decide⟩

/-- Sample pod. -/
def samplePod (id : String) : Pod := ⟨id, "spec"⟩

/-- Sample build of a given strategy kind. -/
def sampleBuild (kind : String) : Build := ⟨"b1", ⟨⟨kind⟩⟩⟩

/-- Sample Docker strategy: it answers a pod named after the build. -/
def sampleDocker : DockerBuildStrategy := ⟨fun b => (some ⟨b.ID, "docker-pod"⟩, none)⟩

/-- Sample STI strategy: it always fails. -/
def sampleSTI : STIBuildStrategy := ⟨fun _ => (none, some ⟨"sti: no image"⟩)⟩

/-- Sample dispatcher over the two sample strategies. -/
def sampleDispatcher : typeBasedFactoryStrategy := ⟨sampleDocker, sampleSTI⟩

/-- Sample remote authority for Builds: one Build listed, one open subscription. -/
def sampleClient : Client :=
  ⟨fun _ _ => (some ⟨[sampleBuild "docker"]⟩, none), fun _ _ _ _ => (some ⟨7⟩, none)⟩

/-- Sample remote authority for Builds that refuses every request. -/
def sampleClientDown : Client :=
  ⟨fun _ _ => (none, some ⟨"connection refused"⟩),
    fun _ _ _ _ => (none, some ⟨"connection refused"⟩)⟩

/-- Sample pod list with three pods. -/
def samplePods : PodList := ⟨[samplePod "p1", samplePod "p2", samplePod "p3"]⟩

/-- Sample remote authority for Pods that lists the three sample pods. -/
def sampleKube : KubeClient := ⟨fun _ _ => (some samplePods, none)⟩

/-- Sample remote authority for Pods whose listing fails. -/
def sampleKubeDown : KubeClient := ⟨fun _ _ => (some samplePods, some ⟨"timeout"⟩)⟩

/-- Sample factory around a Pods authority, with no Build client. -/
def sampleFactory (kc : Option KubeClient) : BuildControllerFactory :=
  ⟨none, kc, sampleDocker, sampleSTI⟩

/-- Sample queue behaviour: Pop waits on an empty queue and otherwise removes and
returns the oldest item. -/
def samplePop : PopFn := fun q s =>
  match s.items q with
  | [] => none
  | x :: rest => some (x, ⟨fun r => if r = q then rest else s.items r⟩)

/-- Sample state of the sinks: one Build waits in queue 1, one Pod in queue 2. -/
def sampleSinks : Sinks :=
  ⟨fun r =>
    if r = 1 then [Obj.build (sampleBuild "docker")]
    else if r = 2 then [Obj.pod (samplePod "p1")]
    else []⟩

/-! ## Helper lemmas -/

/-- Calling Get at indices that are all inside the list never panics: it yields
the (ID, pod) pairs at those indices and records exactly those indices. -/
theorem getEach_in_range (items : List Pod) (d : Pod) (is : List Nat)
    (h : ∀ i ∈ is, i < items.length) :
    getEach ⟨some ⟨items⟩⟩ is =
      ⟨Run.ret (is.map (fun i => ((items.getD i d).ID, items.getD i d))),
        is.map (fun i => Int.ofNat i)⟩ := by
  induction is with
  | nil => rfl
  | cons i is ih =>
    have hi : i < items.length := h i (List.mem_cons_self i is)
    have hrest : ∀ j ∈ is, j < items.length := fun j hj => h j (List.mem_cons_of_mem i hj)
    have hget : podEnumerator.Get ⟨some ⟨items⟩⟩ (Int.ofNat i)
        = Run.ret (items[i].ID, items[i]) := by
      simp [podEnumerator.Get, List.getElem?_eq_getElem hi]
    simp only [getEach, hget, ih hrest, List.map_cons, List.getD_eq_getElem items d hi]

/-- Reading a list back through its own index range gives the list. -/
theorem map_range_getD (items : List Pod) (d : Pod) (f : Pod → String × Pod) :
    (List.range items.length).map (fun i => f (items.getD i d)) = items.map f := by
  apply List.ext_getElem
  · simp
  · intro i h1 h2
    simp at h1
    simp [List.getD_eq_getElem?_getD, h1]

/-! ## Theorems: strategy dispatcher -/

/-- C1: for a Build whose strategy kind is the Docker kind, CreateBuildPod
returns exactly the (pod, error) pair the Docker strategy returns for the same
Build, and for a Build of the STI kind exactly the pair the STI strategy
returns; in both cases that strategy is called once, with the Build, and no
other strategy is called. -/
theorem CreateBuildPod_returns_registered_result (k : StrategyTypes)
    (f : typeBasedFactoryStrategy) (build : Build) :
    (build.Parameters.Strategy.Type_ = k.DockerBuildStrategyType →
      (f.CreateBuildPod k build).value = f.DockerBuildStrategy.CreateBuildPod build ∧
      (f.CreateBuildPod k build).calls = [StrategyCall.docker build]) ∧
    (build.Parameters.Strategy.Type_ = k.STIBuildStrategyType →
      (f.CreateBuildPod k build).value = f.STIBuildStrategy.CreateBuildPod build ∧
      (f.CreateBuildPod k build).calls = [StrategyCall.sti build]) := by
  constructor
  · intro h
    simp [typeBasedFactoryStrategy.CreateBuildPod, h]
  · intro h
    have hne : ¬ build.Parameters.Strategy.Type_ = k.DockerBuildStrategyType := by
      intro hd
      exact k.distinct (hd.symm.trans h)
    simp only [typeBasedFactoryStrategy.CreateBuildPod, if_neg hne, if_pos h, and_self]

/-- Witness of C1: a Docker build gets the pod of the Docker strategy and an STI
build gets the error of the STI strategy. -/
theorem CreateBuildPod_returns_registered_result_witness :
    ((sampleDispatcher.CreateBuildPod sampleTypes (sampleBuild "docker")).value
        = (some ⟨"b1", "docker-pod"⟩, none) ∧
      (sampleDispatcher.CreateBuildPod sampleTypes (sampleBuild "docker")).calls
        = [StrategyCall.docker (sampleBuild "docker")]) ∧
    ((sampleDispatcher.CreateBuildPod sampleTypes (sampleBuild "sti")).value
        = (none, some ⟨"sti: no image"⟩) ∧
      (sampleDispatcher.CreateBuildPod sampleTypes (sampleBuild "sti")).calls
        = [StrategyCall.sti (sampleBuild "sti")]) :=
  ⟨(CreateBuildPod_returns_registered_result sampleTypes sampleDispatcher
      (sampleBuild "docker")).1 (by decide),
    (CreateBuildPod_returns_registered_result sampleTypes sampleDispatcher
      (sampleBuild "sti")).2 (by decide)⟩

/-- C2: for a Build whose strategy kind is neither the Docker kind nor the STI
kind, CreateBuildPod returns a nil pod together with a non-nil error, and calls
no strategy. -/
theorem CreateBuildPod_unregistered_fails (k : StrategyTypes)
    (f : typeBasedFactoryStrategy) (build : Build)
    (hd : build.Parameters.Strategy.Type_ ≠ k.DockerBuildStrategyType)
    (hs : build.Parameters.Strategy.Type_ ≠ k.STIBuildStrategyType) :
    (f.CreateBuildPod k build).value.1 = none ∧
    (f.CreateBuildPod k build).value.2 ≠ none ∧
    (f.CreateBuildPod k build).calls = [] := by
  simp [typeBasedFactoryStrategy.CreateBuildPod, hd, hs]

/-- Witness of C2: a build of kind Z against the sample dispatcher. -/
theorem CreateBuildPod_unregistered_fails_witness :
    (sampleDispatcher.CreateBuildPod sampleTypes (sampleBuild "Z")).value.1 = none ∧
    (sampleDispatcher.CreateBuildPod sampleTypes (sampleBuild "Z")).value.2 ≠ none ∧
    (sampleDispatcher.CreateBuildPod sampleTypes (sampleBuild "Z")).calls = [] :=
  CreateBuildPod_unregistered_fails sampleTypes sampleDispatcher (sampleBuild "Z")
    (by decide) (by decide)

/-- C3, as stated, fails: for the unregistered kind Z the returned error is the
fixed text, in which Z does not occur, and a Build of the different
unregistered kind Y gets the very same error. -/
theorem CreateBuildPod_error_does_not_name_kind :
    (sampleBuild "Z").Parameters.Strategy.Type_ ≠ sampleTypes.DockerBuildStrategyType ∧
    (sampleBuild "Z").Parameters.Strategy.Type_ ≠ sampleTypes.STIBuildStrategyType ∧
    (sampleBuild "Y").Parameters.Strategy.Type_ ≠ sampleTypes.DockerBuildStrategyType ∧
    (sampleBuild "Y").Parameters.Strategy.Type_ ≠ sampleTypes.STIBuildStrategyType ∧
    (sampleDispatcher.CreateBuildPod sampleTypes (sampleBuild "Z")).value.2
      = some ⟨"No strategy defined for type"⟩ ∧
    ¬ occursIn "Z" "No strategy defined for type" ∧
    (sampleDispatcher.CreateBuildPod sampleTypes (sampleBuild "Y")).value.2
      = (sampleDispatcher.CreateBuildPod sampleTypes (sampleBuild "Z")).value.2 := by
  refine ⟨by decide, by decide, by decide, by decide, by decide, by decide, by decide⟩

/-- C3, amended: for every Build whose strategy kind is not registered, the
error returned by CreateBuildPod has the fixed message No strategy defined for
type, whatever the kind is; so two Builds with unregistered kinds, equal or
different, get the same error message. -/
theorem CreateBuildPod_unregistered_error_fixed (k : StrategyTypes)
    (f : typeBasedFactoryStrategy) (b1 b2 : Build)
    (hd1 : b1.Parameters.Strategy.Type_ ≠ k.DockerBuildStrategyType)
    (hs1 : b1.Parameters.Strategy.Type_ ≠ k.STIBuildStrategyType)
    (hd2 : b2.Parameters.Strategy.Type_ ≠ k.DockerBuildStrategyType)
    (hs2 : b2.Parameters.Strategy.Type_ ≠ k.STIBuildStrategyType) :
    (f.CreateBuildPod k b1).value.2 = some ⟨"No strategy defined for type"⟩ ∧
    (f.CreateBuildPod k b2).value.2 = (f.CreateBuildPod k b1).value.2 := by
  simp [typeBasedFactoryStrategy.CreateBuildPod, hd1, hs1, hd2, hs2]

/-- Witness of the amended C3: builds of the kinds Y and Z. -/
theorem CreateBuildPod_unregistered_error_fixed_witness :
    (sampleDispatcher.CreateBuildPod sampleTypes (sampleBuild "Y")).value.2
      = some ⟨"No strategy defined for type"⟩ ∧
    (sampleDispatcher.CreateBuildPod sampleTypes (sampleBuild "Z")).value.2
      = (sampleDispatcher.CreateBuildPod sampleTypes (sampleBuild "Y")).value.2 :=
  CreateBuildPod_unregistered_error_fixed sampleTypes sampleDispatcher
    (sampleBuild "Y") (sampleBuild "Z") (by decide) (by decide) (by decide) (by decide)

/-! ## Theorems: pod enumerator and poller -/

/-- C4: for a podEnumerator whose pod list is nil or has no items, Len returns 0
without panicking, and a caller that calls Get only for the indices
0 <= i < Len() makes no Get call and obtains no item. -/
theorem Len_zero_on_nil_or_empty (pe : podEnumerator)
    (h : pe.PodList = none ∨ pe.PodList = some ⟨[]⟩) :
    pe.Len = Run.ret 0 ∧
    (enumerate pe).value = Run.ret [] ∧
    (enumerate pe).calls = [] := by
  obtain ⟨l⟩ := pe
  rcases h with h | h
  · simp only at h
    subst h
    exact ⟨rfl, rfl, rfl⟩
  · simp only at h
    subst h
    exact ⟨rfl, rfl, rfl⟩

/-- Witness of C4: the enumerator over a nil list. -/
theorem Len_zero_on_nil_or_empty_witness :
    ((podEnumerator.mk none).PodList = none ∨ (podEnumerator.mk none).PodList = some ⟨[]⟩) ∧
    (podEnumerator.mk none).Len = Run.ret 0 ∧
    (enumerate (podEnumerator.mk none)).value = Run.ret [] ∧
    (enumerate (podEnumerator.mk none)).calls = [] :=
  ⟨Or.inl rfl, Len_zero_on_nil_or_empty (podEnumerator.mk none) (Or.inl rfl)⟩

/-- C6: with a KubeClient in place, pollPods issues one ListPods request with
the match-everything selector; when that request fails with error e, pollPods
returns a nil enumerator and exactly e; when it succeeds with list L, pollPods
returns a nil error and an enumerator over L. -/
theorem pollPods_passes_listing_on (factory : BuildControllerFactory) (kc : KubeClient)
    (h : factory.KubeClient = some kc) :
    factory.pollPods.calls = [ClientCall.ListPods NewContext Everything] ∧
    (∀ (L : Option PodList) (e : Error),
      kc.ListPods NewContext Everything = (L, some e) →
        factory.pollPods.value = Run.ret (none, some e)) ∧
    (∀ L : Option PodList,
      kc.ListPods NewContext Everything = (L, none) →
        factory.pollPods.value = Run.ret (some ⟨L⟩, none)) := by
  refine ⟨?_, ?_, ?_⟩
  · simp only [BuildControllerFactory.pollPods, h]
    split <;> rfl
  · intro L e hl
    simp only [BuildControllerFactory.pollPods, h, hl]
  · intro L hl
    simp only [BuildControllerFactory.pollPods, h, hl]

/-- Witness of C6: a failed listing and a successful one. -/
theorem pollPods_passes_listing_on_witness :
    (sampleFactory (some sampleKubeDown)).pollPods.value
      = Run.ret (none, some ⟨"timeout"⟩) ∧
    (sampleFactory (some sampleKube)).pollPods.value
      = Run.ret (some ⟨some samplePods⟩, none) :=
  ⟨(pollPods_passes_listing_on (sampleFactory (some sampleKubeDown)) sampleKubeDown rfl).2.1
      (some samplePods) ⟨"timeout"⟩ rfl,
    (pollPods_passes_listing_on (sampleFactory (some sampleKube)) sampleKube rfl).2.2
      (some samplePods) rfl⟩

/-- C10: for a podEnumerator over a non-nil pod list, Len returns the number of
items; for every index 0 <= i < Len(), Get does not panic and returns the pair
(ID of the i-th pod, the i-th pod); and a caller that visits the indices
0 .. Len()-1 in order calls Get once per index and obtains every listed pod
exactly once, in list order, each under its own ID. -/
theorem podEnumerator_enumerates_list (l : PodList) :
    (podEnumerator.mk (some l)).Len = Run.ret (l.Items.length : Int) ∧
    (∀ i : Int, 0 ≤ i → i < (l.Items.length : Int) →
      ∃ p, l.Items[i.toNat]? = some p ∧
        (podEnumerator.mk (some l)).Get i = Run.ret (p.ID, p)) ∧
    (enumerate (podEnumerator.mk (some l))).value
      = Run.ret (l.Items.map (fun p => (p.ID, p))) ∧
    (enumerate (podEnumerator.mk (some l))).calls
      = (List.range l.Items.length).map (fun i => Int.ofNat i) := by
  obtain ⟨items⟩ := l
  have hall : ∀ i ∈ List.range items.length, i < items.length :=
    fun i hi => List.mem_range.mp hi
  have henum : enumerate ⟨some ⟨items⟩⟩ =
      getEach ⟨some ⟨items⟩⟩ (List.range items.length) := by
    simp [enumerate, podEnumerator.Len]
  refine ⟨rfl, ?_, ?_, ?_⟩
  · intro i h0 hlt
    have hlt2 : i < (items.length : Int) := hlt
    have hn : i.toNat < items.length := by omega
    refine ⟨items[i.toNat], List.getElem?_eq_getElem hn, ?_⟩
    have hneg : ¬ i < 0 := by omega
    simp [podEnumerator.Get, hneg, List.getElem?_eq_getElem hn]
  · rw [henum, getEach_in_range items ⟨"", ""⟩ _ hall]
    simp only
    rw [map_range_getD items ⟨"", ""⟩ (fun p => (p.ID, p))]
  · rw [henum, getEach_in_range items ⟨"", ""⟩ _ hall]

/-- Witness of C10: index 1 of the three sample pods. -/
theorem podEnumerator_enumerates_list_witness :
    (0 : Int) ≤ 1 ∧ (1 : Int) < (samplePods.Items.length : Int) ∧
    ∃ p, samplePods.Items[(1 : Int).toNat]? = some p ∧
      (podEnumerator.mk (some samplePods)).Get 1 = Run.ret (p.ID, p) :=
  ⟨by decide, by decide,
    (podEnumerator_enumerates_list samplePods).2.1 1 (by decide) (by decide)⟩

/-! ## Theorems: list/watch source -/

/-- C5: Watch ignores its resourceVersion argument: for every pair of
resourceVersion strings the outcome and the requests issued are the same, and
through a client the one request issued is WatchBuilds with the
match-everything selector twice and the version 0. -/
theorem Watch_ignores_resourceVersion (lw : buildLW) (c : Client) (rv1 rv2 : String) :
    (lw.Watch rv1).value = (lw.Watch rv2).value ∧
    (lw.Watch rv1).calls = (lw.Watch rv2).calls ∧
    (buildLW.Watch ⟨some c⟩ rv1).calls
      = [ClientCall.WatchBuilds NewContext Everything Everything "0"] ∧
    (∀ ls, Everything.Matches ls = true) := by
  refine ⟨rfl, rfl, rfl, ?_⟩
  intro ls
  rfl

/-- C7: List returns exactly the (snapshot, error) pair that ListBuilds with the
match-everything selector returns, and Watch returns exactly the
(subscription, error) pair that WatchBuilds returns; each issues that one
request, so an error of the remote authority reaches the caller unmodified. -/
theorem buildLW_returns_remote_result (c : Client) (rv : String) :
    (buildLW.List ⟨some c⟩).value = Run.ret (c.ListBuilds NewContext Everything) ∧
    (buildLW.List ⟨some c⟩).calls = [ClientCall.ListBuilds NewContext Everything] ∧
    (buildLW.Watch ⟨some c⟩ rv).value
      = Run.ret (c.WatchBuilds NewContext Everything Everything "0") ∧
    (buildLW.Watch ⟨some c⟩ rv).calls
      = [ClientCall.WatchBuilds NewContext Everything Everything "0"] ∧
    (∀ ls, Everything.Matches ls = true) := by
  refine ⟨rfl, rfl, rfl, rfl, ?_⟩
  intro ls
  rfl

/-! ## Theorems: composer -/

/-- C8, as stated, fails: with the factory's clients missing (nil pointers),
Create still returns a controller, after starting both Reflectors over a watch
source that holds the nil client pointer. -/
theorem Create_succeeds_without_client :
    (sampleFactory none).Client = none ∧
    (BuildControllerFactory.Create samplePop (sampleFactory none) 0).controller.isSome = true ∧
    ((BuildControllerFactory.Create samplePop (sampleFactory none) 0).effects.filterMap
      Effect.source).map (fun lw => lw.client.isSome) = [false, false] := by
  refine ⟨rfl, rfl, rfl⟩

/-- C8, amended: Create has no failure path. For every factory, also one whose
client is missing, it returns a controller; each of the two watch sources is
built by storing the factory's client as it is, which cannot fail, and the
same client is handed to the controller as BuildUpdater (and the factory's
KubeClient and strategies as PodCreator and BuildStrategy). -/
theorem Create_always_returns_controller (pop : PopFn) (factory : BuildControllerFactory)
    (fresh : Ref) :
    (∃ c, (factory.Create pop fresh).controller = some c ∧
      c.BuildUpdater = factory.Client ∧
      c.PodCreator = factory.KubeClient ∧
      c.BuildStrategy = ⟨factory.DockerBuildStrategy, factory.STIBuildStrategy⟩) ∧
    (factory.Create pop fresh).effects.filterMap Effect.source
      = [⟨factory.Client⟩, ⟨factory.Client⟩] := by
  refine ⟨⟨_, rfl, rfl, rfl, rfl⟩, rfl⟩

/-- C9: the calls Create makes before it returns are, in order: NewStore, Run of
a Reflector from the Build watch source into that store, NewFIFO, Run of a
second Reflector from the Build watch source into that queue, NewFIFO, and Run
of a Poller of pollPods with a period of 10 seconds into that second queue.
So exactly three tasks are started, their sinks are pairwise different, and in
the returned controller BuildStore is the store, NextBuild pops the Build queue
and NextPod pops the Pod queue: each accessor stays blocked while Pop of its
queue blocks, returns the popped item and leaves the sinks as Pop left them
when the item has the accessor's type, and panics on an item of the other
type. -/
theorem Create_starts_three_tasks (pop : PopFn) (factory : BuildControllerFactory)
    (fresh : Ref) :
    (factory.Create pop fresh).effects =
      [Effect.NewStore fresh,
        Effect.ReflectorRun ⟨factory.Client⟩ ExpectedType.Build fresh,
        Effect.NewFIFO (fresh + 1),
        Effect.ReflectorRun ⟨factory.Client⟩ ExpectedType.Build (fresh + 1),
        Effect.NewFIFO (fresh + 2),
        Effect.PollerRun (fun _ => factory.pollPods) 10000000000 (fresh + 2)] ∧
    ((factory.Create pop fresh).effects.filter Effect.startsTask).length = 3 ∧
    ((factory.Create pop fresh).effects.filter Effect.startsTask).filterMap Effect.sink
      = [fresh, fresh + 1, fresh + 2] ∧
    [fresh, fresh + 1, fresh + 2].Nodup ∧
    (∃ c, (factory.Create pop fresh).controller = some c ∧
      c.BuildStore = fresh ∧
      ((∀ s, pop (fresh + 1) s = none → c.NextBuild s = Next.blocked) ∧
        (∀ s b after, pop (fresh + 1) s = some (Obj.build b, after) →
          c.NextBuild s = Next.value b after) ∧
        (∀ s p after, pop (fresh + 1) s = some (Obj.pod p, after) →
          c.NextBuild s = Next.panic Panic.typeAssertion)) ∧
      ((∀ s, pop (fresh + 2) s = none → c.NextPod s = Next.blocked) ∧
        (∀ s p after, pop (fresh + 2) s = some (Obj.pod p, after) →
          c.NextPod s = Next.value p after) ∧
        (∀ s b after, pop (fresh + 2) s = some (Obj.build b, after) →
          c.NextPod s = Next.panic Panic.typeAssertion))) := by
  refine ⟨rfl, rfl, rfl, ?_, ⟨_, rfl, rfl, ⟨?_, ?_, ?_⟩, ⟨?_, ?_, ?_⟩⟩⟩
  · simp
  · intro s h
    simp only [h]
  · intro s b after h
    simp only [h]
  · intro s p after h
    simp only [h]
  · intro s h
    simp only [h]
  · intro s p after h
    simp only [h]
  · intro s b after h
    simp only [h]

/-- Witness of C9: with a Build waiting in queue 1 and a Pod in queue 2, the
controller created from reference 0 gets that Build from NextBuild and that Pod
from NextPod, each removed from its own queue and from no other. -/
theorem Create_starts_three_tasks_witness :
    ∃ c, (BuildControllerFactory.Create samplePop (sampleFactory none) 0).controller = some c ∧
      c.NextBuild sampleSinks
        = Next.value (sampleBuild "docker")
            ⟨fun r => if r = 1 then [] else sampleSinks.items r⟩ ∧
      c.NextPod sampleSinks
        = Next.value (samplePod "p1")
            ⟨fun r => if r = 2 then [] else sampleSinks.items r⟩ := by
  obtain ⟨c, hc, _, hb, hp⟩ :=
    (Create_starts_three_tasks samplePop (sampleFactory none) 0).2.2.2.2
  exact ⟨c, hc, hb.2.1 sampleSinks _ _ rfl, hp.2.1 sampleSinks _ _ rfl⟩

end Factory
